import Mathlib

/-! Verification development for the pix2pix model-definition module
(`model_modules.py`).  Tensors are modelled as a shape `(n, c, h, w)`
together with a total real-valued index function; convolution layers
follow the PyTorch output-size formulas; block constructors return
`Except String _` so that the `NotImplementedError("norm error")` raised
on an unrecognized normalization mode is visible.  Random weight
initialization, dropout masks, and normalization running statistics are
externalized as explicit parameters; normalization is applied with the
stored statistics (the training-mode statistics update is external state
outside this module). -/

/-- A 4-dimensional activation tensor: batch, channels, height, width,
with a total data function (indices outside the shape carry junk). -/
structure Tensor where
  n : ℕ
  c : ℕ
  h : ℕ
  w : ℕ
  data : ℕ → ℕ → ℕ → ℕ → ℝ

/-- The shape quadruple of a tensor. -/
def Tensor.shape (t : Tensor) : ℕ × ℕ × ℕ × ℕ := (t.n, t.c, t.h, t.w)

/-- PyTorch `Conv2d` spatial output size:
`floor((size + 2*padding - dilation*(kernel-1) - 1) / stride) + 1`. -/
def convOutDim (size kernel stride padding dilation : ℕ) : ℕ :=
  (size + 2 * padding - (dilation * (kernel - 1) + 1)) / stride + 1

/-- PyTorch `ConvTranspose2d` spatial output size (dilation 1, no output
padding): `(size - 1) * stride - 2*padding + kernel`. -/
def convTOutDim (size kernel stride padding : ℕ) : ℕ :=
  (size - 1) * stride + kernel - 2 * padding

/-- `Conv2d` requires the effective kernel to fit inside the padded
input; PyTorch raises a runtime error otherwise. -/
def convFits (size kernel stride padding dilation : ℕ) : Prop :=
  stride ≠ 0 ∧ dilation * (kernel - 1) + 1 ≤ size + 2 * padding

instance (size kernel stride padding dilation : ℕ) :
    Decidable (convFits size kernel stride padding dilation) := by
  unfold convFits; infer_instance

noncomputable section

/-- `nn.LeakyReLU(0.2)`: identity on nonnegatives, slope `0.2` below zero. -/
def leakyRelu (x : ℝ) : ℝ := if 0 ≤ x then x else (0.2 : ℝ) * x

/-- `nn.ReLU()`. -/
def reluR (x : ℝ) : ℝ := max x 0

/-- `nn.Sigmoid()`: `1 / (1 + exp (-x))`. -/
def sigmoidR (x : ℝ) : ℝ := 1 / (1 + Real.exp (-x))

/-- `nn.Tanh()`: `(exp x - exp (-x)) / (exp x + exp (-x))`. -/
def tanhR (x : ℝ) : ℝ := (Real.exp x - Real.exp (-x)) / (Real.exp x + Real.exp (-x))

/-- Apply a scalar function pointwise, keeping the shape. -/
def Tensor.map (f : ℝ → ℝ) (t : Tensor) : Tensor :=
  ⟨t.n, t.c, t.h, t.w, fun n c i j => f (t.data n c i j)⟩

/-- Read a tensor through zero padding of width `p` on both spatial
sides: index `(i, j)` of the padded plane. -/
def paddedAt (t : Tensor) (p : ℕ) (n c i j : ℕ) : ℝ :=
  if p ≤ i ∧ i < t.h + p ∧ p ≤ j ∧ j < t.w + p then t.data n c (i - p) (j - p) else 0

/-- `torch.cat([a, b], 1)`: concatenation along the channel axis; the
first `a.c` channels come from `a`, the rest from `b`. -/
def concatChannel (a b : Tensor) : Tensor :=
  ⟨a.n, a.c + b.c, a.h, a.w,
    fun n c i j => if c < a.c then a.data n c i j else b.data n (c - a.c) i j⟩

/-- `nn.Conv2d` configuration and parameters (`biasF = none` models
`bias=False`). -/
structure Conv2d where
  in_channels : ℕ
  out_channels : ℕ
  kernel_size : ℕ
  stride : ℕ
  padding : ℕ
  dilation : ℕ
  groups : ℕ
  weight : ℕ → ℕ → ℕ → ℕ → ℝ
  biasF : Option (ℕ → ℝ)

/-- Forward pass of `nn.Conv2d`: cross-correlation of the zero-padded
input with the kernel, strided and dilated, with grouped channels. -/
def Conv2d.apply (cv : Conv2d) (x : Tensor) : Tensor :=
  ⟨x.n, cv.out_channels,
    convOutDim x.h cv.kernel_size cv.stride cv.padding cv.dilation,
    convOutDim x.w cv.kernel_size cv.stride cv.padding cv.dilation,
    fun n co i j =>
      (match cv.biasF with | some bf => bf co | none => 0) +
      Finset.sum (Finset.range (cv.in_channels / cv.groups)) fun ci =>
        Finset.sum (Finset.range cv.kernel_size) fun ki =>
          Finset.sum (Finset.range cv.kernel_size) fun kj =>
            cv.weight co ci ki kj *
              paddedAt x cv.padding n
                (co / (cv.out_channels / cv.groups) * (cv.in_channels / cv.groups) + ci)
                (i * cv.stride + ki * cv.dilation) (j * cv.stride + kj * cv.dilation)⟩

/-- `nn.ConvTranspose2d` configuration and parameters. -/
structure ConvTranspose2d where
  in_channels : ℕ
  out_channels : ℕ
  kernel_size : ℕ
  stride : ℕ
  padding : ℕ
  weight : ℕ → ℕ → ℕ → ℕ → ℝ
  biasF : Option (ℕ → ℝ)

/-- Forward pass of `nn.ConvTranspose2d`: each input position `(a, b)`
scatters the kernel onto output positions `a*stride - padding + ki`. -/
def ConvTranspose2d.apply (cv : ConvTranspose2d) (x : Tensor) : Tensor :=
  ⟨x.n, cv.out_channels,
    convTOutDim x.h cv.kernel_size cv.stride cv.padding,
    convTOutDim x.w cv.kernel_size cv.stride cv.padding,
    fun n co i j =>
      (match cv.biasF with | some bf => bf co | none => 0) +
      Finset.sum (Finset.range cv.in_channels) fun ci =>
        Finset.sum (Finset.range x.h) fun a =>
          Finset.sum (Finset.range x.w) fun b =>
            Finset.sum (Finset.range cv.kernel_size) fun ki =>
              Finset.sum (Finset.range cv.kernel_size) fun kj =>
                if a * cv.stride + ki = i + cv.padding ∧ b * cv.stride + kj = j + cv.padding
                then cv.weight ci co ki kj * x.data n ci a b else 0⟩

/-- `nn.BatchNorm2d` parameters; applied with the stored statistics. -/
structure BatchNorm2d where
  num_features : ℕ
  weightBN : ℕ → ℝ
  biasBN : ℕ → ℝ
  running_mean : ℕ → ℝ
  running_var : ℕ → ℝ
  eps : ℝ

/-- `nn.BatchNorm2d(ch)` as freshly constructed: scale 1, shift 0,
running mean 0, running variance 1, `eps = 1e-5`. -/
def mkBatchNorm2d (ch : ℕ) : BatchNorm2d :=
  ⟨ch, fun _ => 1, fun _ => 0, fun _ => 0, fun _ => 1, (1e-5 : ℝ)⟩

/-- `nn.InstanceNorm2d` (default: no affine parameters, no running
statistics; normalizes with per-instance spatial statistics). -/
structure InstanceNorm2d where
  num_features : ℕ
  eps : ℝ

/-- Per-instance, per-channel spatial mean. -/
def spatialMean (t : Tensor) (n c : ℕ) : ℝ :=
  (Finset.sum (Finset.range t.h) fun i =>
    Finset.sum (Finset.range t.w) fun j => t.data n c i j) / ((t.h : ℝ) * (t.w : ℝ))

/-- Per-instance, per-channel (biased) spatial variance. -/
def spatialVar (t : Tensor) (n c : ℕ) : ℝ :=
  (Finset.sum (Finset.range t.h) fun i =>
    Finset.sum (Finset.range t.w) fun j =>
      (t.data n c i j - spatialMean t n c) ^ 2) / ((t.h : ℝ) * (t.w : ℝ))

/-- The normalization layer a block resolved at construction time. -/
inductive Norm2d where
  | batch (bn : BatchNorm2d)
  | instNorm (inn : InstanceNorm2d)

/-- Apply an optional normalization layer; shape-preserving. -/
def Norm2d.applyOpt (nl : Option Norm2d) (t : Tensor) : Tensor :=
  ⟨t.n, t.c, t.h, t.w,
    fun n c i j =>
      match nl with
      | some (.batch bn) =>
          bn.weightBN c * ((t.data n c i j - bn.running_mean c) /
            Real.sqrt (bn.running_var c + bn.eps)) + bn.biasBN c
      | some (.instNorm inn) =>
          (t.data n c i j - spatialMean t n c) / Real.sqrt (spatialVar t n c + inn.eps)
      | none => t.data n c i j⟩

/-- `nn.Dropout2d(p)`: the sampled channel mask (Bernoulli keep-mask
scaled by `1/(1-p)` in training mode, constantly 1 in evaluation mode)
is externalized as an explicit per-`(n, c)` factor. -/
structure Dropout2d where
  p : ℚ
  mask : ℕ → ℕ → ℝ

/-- Apply dropout: multiply each `(n, c)` channel plane by its mask. -/
def Dropout2d.apply (dp : Dropout2d) (t : Tensor) : Tensor :=
  ⟨t.n, t.c, t.h, t.w, fun n c i j => dp.mask n c * t.data n c i j⟩

/-- `EncoderBlock`: strided convolution with optional pre-activation and
optional normalization. -/
structure EncoderBlock where
  conv : Conv2d
  do_norm : Bool
  do_activation : Bool
  normLayer : Option Norm2d

/-- `EncoderBlock.forward`: leaky activation (if enabled), then the
convolution, then normalization (if enabled). -/
def EncoderBlock.forward (b : EncoderBlock) (x : Tensor) : Tensor :=
  let x1 := if b.do_activation then Tensor.map leakyRelu x else x
  let x2 := b.conv.apply x1
  if b.do_norm then Norm2d.applyOpt b.normLayer x2 else x2

/-- `DecoderBlock`: transposed convolution with optional pre-activation,
optional normalization, and dropout when the probability is nonzero. -/
structure DecoderBlock where
  convT : ConvTranspose2d
  dropout_prob : ℚ
  drop : Dropout2d
  do_norm : Bool
  do_activation : Bool
  normLayer : Option Norm2d

/-- `DecoderBlock.forward`: activation (if enabled), then the transposed
convolution, then normalization (if enabled), then dropout exactly when
`dropout_prob ≠ 0`. -/
def DecoderBlock.forward (b : DecoderBlock) (x : Tensor) : Tensor :=
  let x1 := if b.do_activation then Tensor.map reluR x else x
  let x2 := b.convT.apply x1
  let x3 := if b.do_norm then Norm2d.applyOpt b.normLayer x2 else x2
  if b.dropout_prob ≠ 0 then b.drop.apply x3 else x3

/-- Resolve the normalization choice at construction time: with
`do_norm` set, only the strings `"batch"` and `"instance"` are accepted;
anything else raises `NotImplementedError("norm error")`. -/
def resolveNorm (do_norm : Bool) (norm : String) (ch : ℕ) : Except String (Option Norm2d) :=
  if do_norm then
    if norm = ("batch") then Except.ok (some (Norm2d.batch (mkBatchNorm2d ch)))
    else if norm = ("instance") then
      Except.ok (some (Norm2d.instNorm ⟨ch, (1e-5 : ℝ)⟩))
    else Except.error ("norm error")
  else Except.ok none

/-- `EncoderBlock.__init__`; the random convolution weight and bias
initialization is passed in explicitly. -/
def mkEncoderBlock (in_channels out_channels kernel_size stride padding dilation groups : ℕ)
    (bias : Bool) (do_norm : Bool) (norm : String) (do_activation : Bool)
    (wt : ℕ → ℕ → ℕ → ℕ → ℝ) (bw : ℕ → ℝ) : Except String EncoderBlock :=
  match resolveNorm do_norm norm out_channels with
  | Except.error e => Except.error e
  | Except.ok nl =>
      Except.ok
        ⟨⟨in_channels, out_channels, kernel_size, stride, padding, dilation, groups,
          wt, if bias then some bw else none⟩, do_norm, do_activation, nl⟩

/-- `DecoderBlock.__init__`; weight initialization and the dropout mask
are passed in explicitly. -/
def mkDecoderBlock (in_channels out_channels kernel_size stride padding : ℕ)
    (bias : Bool) (do_norm : Bool) (norm : String) (do_activation : Bool)
    (dropout_prob : ℚ) (wt : ℕ → ℕ → ℕ → ℕ → ℝ) (bw : ℕ → ℝ)
    (mask : ℕ → ℕ → ℝ) : Except String DecoderBlock :=
  match resolveNorm do_norm norm out_channels with
  | Except.error e => Except.error e
  | Except.ok nl =>
      Except.ok
        ⟨⟨in_channels, out_channels, kernel_size, stride, padding,
          wt, if bias then some bw else none⟩,
          dropout_prob, ⟨dropout_prob, mask⟩, do_norm, do_activation, nl⟩

/-- Externalized random initialization for a model: per-stage
convolution weights, bias vectors, and dropout channel masks. -/
structure InitParams where
  we : ℕ → ℕ → ℕ → ℕ → ℕ → ℝ
  be : ℕ → ℕ → ℝ
  wd : ℕ → ℕ → ℕ → ℕ → ℕ → ℝ
  bd : ℕ → ℕ → ℝ
  dmask : ℕ → ℕ → ℕ → ℝ

/-- `Generator`: 8-step encoder and 8-step U-Net decoder. -/
structure Generator where
  encoder1 : EncoderBlock
  encoder2 : EncoderBlock
  encoder3 : EncoderBlock
  encoder4 : EncoderBlock
  encoder5 : EncoderBlock
  encoder6 : EncoderBlock
  encoder7 : EncoderBlock
  encoder8 : EncoderBlock
  decoder1 : DecoderBlock
  decoder2 : DecoderBlock
  decoder3 : DecoderBlock
  decoder4 : DecoderBlock
  decoder5 : DecoderBlock
  decoder6 : DecoderBlock
  decoder7 : DecoderBlock
  decoder8 : DecoderBlock

/-- `Generator.__init__`: the 8 encoder and 8 decoder blocks exactly as
constructed in the source (defaults: kernel 4, stride 2, padding 1,
dilation 1, groups 1; dropout probability on decoders 2-4 only). -/
def mkGenerator (in_channels out_channels : ℕ) (bias : Bool) (dropout_prob : ℚ)
    (norm : String) (pr : InitParams) : Except String Generator := do
  let encoder1 ← mkEncoderBlock in_channels 64 4 2 1 1 1 bias false ("batch") false (pr.we 1) (pr.be 1)
  let encoder2 ← mkEncoderBlock 64 128 4 2 1 1 1 bias true norm true (pr.we 2) (pr.be 2)
  let encoder3 ← mkEncoderBlock 128 256 4 2 1 1 1 bias true norm true (pr.we 3) (pr.be 3)
  let encoder4 ← mkEncoderBlock 256 512 4 2 1 1 1 bias true norm true (pr.we 4) (pr.be 4)
  let encoder5 ← mkEncoderBlock 512 512 4 2 1 1 1 bias true norm true (pr.we 5) (pr.be 5)
  let encoder6 ← mkEncoderBlock 512 512 4 2 1 1 1 bias true norm true (pr.we 6) (pr.be 6)
  let encoder7 ← mkEncoderBlock 512 512 4 2 1 1 1 bias true norm true (pr.we 7) (pr.be 7)
  let encoder8 ← mkEncoderBlock 512 512 4 2 1 1 1 bias false ("batch") true (pr.we 8) (pr.be 8)
  let decoder1 ← mkDecoderBlock 512 512 4 2 1 bias true norm true 0 (pr.wd 1) (pr.bd 1) (pr.dmask 1)
  let decoder2 ← mkDecoderBlock 1024 512 4 2 1 bias true norm true dropout_prob (pr.wd 2) (pr.bd 2) (pr.dmask 2)
  let decoder3 ← mkDecoderBlock 1024 512 4 2 1 bias true norm true dropout_prob (pr.wd 3) (pr.bd 3) (pr.dmask 3)
  let decoder4 ← mkDecoderBlock 1024 512 4 2 1 bias true norm true dropout_prob (pr.wd 4) (pr.bd 4) (pr.dmask 4)
  let decoder5 ← mkDecoderBlock 1024 256 4 2 1 bias true norm true 0 (pr.wd 5) (pr.bd 5) (pr.dmask 5)
  let decoder6 ← mkDecoderBlock 512 128 4 2 1 bias true norm true 0 (pr.wd 6) (pr.bd 6) (pr.dmask 6)
  let decoder7 ← mkDecoderBlock 256 64 4 2 1 bias true norm true 0 (pr.wd 7) (pr.bd 7) (pr.dmask 7)
  let decoder8 ← mkDecoderBlock 128 out_channels 4 2 1 bias false ("batch") true 0 (pr.wd 8) (pr.bd 8) (pr.dmask 8)
  pure ⟨encoder1, encoder2, encoder3, encoder4, encoder5, encoder6, encoder7, encoder8,
    decoder1, decoder2, decoder3, decoder4, decoder5, decoder6, decoder7, decoder8⟩

/-- Encoder activation `encode1` of `Generator.forward`. -/
def Generator.enc1 (g : Generator) (x : Tensor) : Tensor := g.encoder1.forward x

/-- Encoder activation `encode2` of `Generator.forward`. -/
def Generator.enc2 (g : Generator) (x : Tensor) : Tensor := g.encoder2.forward (g.enc1 x)

/-- Encoder activation `encode3` of `Generator.forward`. -/
def Generator.enc3 (g : Generator) (x : Tensor) : Tensor := g.encoder3.forward (g.enc2 x)

/-- Encoder activation `encode4` of `Generator.forward`. -/
def Generator.enc4 (g : Generator) (x : Tensor) : Tensor := g.encoder4.forward (g.enc3 x)

/-- Encoder activation `encode5` of `Generator.forward`. -/
def Generator.enc5 (g : Generator) (x : Tensor) : Tensor := g.encoder5.forward (g.enc4 x)

/-- Encoder activation `encode6` of `Generator.forward`. -/
def Generator.enc6 (g : Generator) (x : Tensor) : Tensor := g.encoder6.forward (g.enc5 x)

/-- Encoder activation `encode7` of `Generator.forward`. -/
def Generator.enc7 (g : Generator) (x : Tensor) : Tensor := g.encoder7.forward (g.enc6 x)

/-- Encoder activation `encode8` of `Generator.forward` (bottleneck). -/
def Generator.enc8 (g : Generator) (x : Tensor) : Tensor := g.encoder8.forward (g.enc7 x)

/-- Decoder-stage activation `decode1`: decoder 1 applied to the raw
bottleneck, concatenated with `encode7`. -/
def Generator.dec1 (g : Generator) (x : Tensor) : Tensor :=
  concatChannel (g.decoder1.forward (g.enc8 x)) (g.enc7 x)

/-- Decoder-stage activation `decode2`. -/
def Generator.dec2 (g : Generator) (x : Tensor) : Tensor :=
  concatChannel (g.decoder2.forward (g.dec1 x)) (g.enc6 x)

/-- Decoder-stage activation `decode3`. -/
def Generator.dec3 (g : Generator) (x : Tensor) : Tensor :=
  concatChannel (g.decoder3.forward (g.dec2 x)) (g.enc5 x)

/-- Decoder-stage activation `decode4`. -/
def Generator.dec4 (g : Generator) (x : Tensor) : Tensor :=
  concatChannel (g.decoder4.forward (g.dec3 x)) (g.enc4 x)

/-- Decoder-stage activation `decode5`. -/
def Generator.dec5 (g : Generator) (x : Tensor) : Tensor :=
  concatChannel (g.decoder5.forward (g.dec4 x)) (g.enc3 x)

/-- Decoder-stage activation `decode6`. -/
def Generator.dec6 (g : Generator) (x : Tensor) : Tensor :=
  concatChannel (g.decoder6.forward (g.dec5 x)) (g.enc2 x)

/-- Decoder-stage activation `decode7`. -/
def Generator.dec7 (g : Generator) (x : Tensor) : Tensor :=
  concatChannel (g.decoder7.forward (g.dec6 x)) (g.enc1 x)

/-- `Generator.forward`: the encoder chain, the skip-connected decoder
chain, and the final `nn.Tanh()`. -/
def Generator.forward (g : Generator) (x : Tensor) : Tensor :=
  Tensor.map tanhR (g.decoder8.forward (g.dec7 x))

/-- `Discriminator`: the 70x70 patch classifier (5 encoder blocks). -/
structure Discriminator where
  disc1 : EncoderBlock
  disc2 : EncoderBlock
  disc3 : EncoderBlock
  disc4 : EncoderBlock
  disc5 : EncoderBlock

/-- `Discriminator.__init__` exactly as in the source: blocks 1-3 use
the default stride 2, blocks 4-5 use stride 1. -/
def mkDiscriminator (in_channels out_channels : ℕ) (bias : Bool) (norm : String)
    (pr : InitParams) : Except String Discriminator := do
  let disc1 ← mkEncoderBlock (in_channels * 2) 64 4 2 1 1 1 bias false ("batch") false (pr.we 1) (pr.be 1)
  let disc2 ← mkEncoderBlock 64 128 4 2 1 1 1 bias true norm true (pr.we 2) (pr.be 2)
  let disc3 ← mkEncoderBlock 128 256 4 2 1 1 1 bias true norm true (pr.we 3) (pr.be 3)
  let disc4 ← mkEncoderBlock 256 512 4 1 1 1 1 bias true norm true (pr.we 4) (pr.be 4)
  let disc5 ← mkEncoderBlock 512 out_channels 4 1 1 1 1 bias false ("batch") true (pr.we 5) (pr.be 5)
  pure ⟨disc1, disc2, disc3, disc4, disc5⟩

/-- `Discriminator.forward`: channel-concatenate `(x, ref)`, run the 5
blocks, and apply `nn.Sigmoid()`. -/
def Discriminator.forward (d : Discriminator) (x ref : Tensor) : Tensor :=
  Tensor.map sigmoidR
    (d.disc5.forward (d.disc4.forward (d.disc3.forward (d.disc2.forward
      (d.disc1.forward (concatChannel x ref))))))

/-- `Discriminator286`: the 286x286 patch classifier (7 encoder
blocks). -/
structure Discriminator286 where
  disc1 : EncoderBlock
  disc2 : EncoderBlock
  disc3 : EncoderBlock
  disc4 : EncoderBlock
  disc5 : EncoderBlock
  disc6 : EncoderBlock
  disc7 : EncoderBlock

/-- `Discriminator286.__init__` exactly as in the source: blocks 1-5 use
the default stride 2, blocks 6-7 use stride 1. -/
def mkDiscriminator286 (in_channels out_channels : ℕ) (bias : Bool) (norm : String)
    (pr : InitParams) : Except String Discriminator286 := do
  let disc1 ← mkEncoderBlock (in_channels * 2) 64 4 2 1 1 1 bias false ("batch") false (pr.we 1) (pr.be 1)
  let disc2 ← mkEncoderBlock 64 128 4 2 1 1 1 bias true norm true (pr.we 2) (pr.be 2)
  let disc3 ← mkEncoderBlock 128 256 4 2 1 1 1 bias true norm true (pr.we 3) (pr.be 3)
  let disc4 ← mkEncoderBlock 256 512 4 2 1 1 1 bias true norm true (pr.we 4) (pr.be 4)
  let disc5 ← mkEncoderBlock 512 512 4 2 1 1 1 bias true norm true (pr.we 5) (pr.be 5)
  let disc6 ← mkEncoderBlock 512 512 4 1 1 1 1 bias true norm true (pr.we 6) (pr.be 6)
  let disc7 ← mkEncoderBlock 512 out_channels 4 1 1 1 1 bias false ("batch") true (pr.we 7) (pr.be 7)
  pure ⟨disc1, disc2, disc3, disc4, disc5, disc6, disc7⟩

/-- `Discriminator286.forward`: channel-concatenate `(x, ref)`, run the
7 blocks, and apply `nn.Sigmoid()`. -/
def Discriminator286.forward (d : Discriminator286) (x ref : Tensor) : Tensor :=
  Tensor.map sigmoidR
    (d.disc7.forward (d.disc6.forward (d.disc5.forward (d.disc4.forward
      (d.disc3.forward (d.disc2.forward (d.disc1.forward (concatChannel x ref))))))))

/-- All-zero initialization, used for concrete instances. -/
def zeroInit : InitParams :=
  ⟨fun _ _ _ _ _ => 0, fun _ _ => 0, fun _ _ _ _ _ => 0, fun _ _ => 0, fun _ _ _ => 1⟩

/-- The all-zero `(1, 3, 256, 256)` input tensor. -/
def x256 : Tensor := ⟨1, 3, 256, 256, fun _ _ _ _ => 0⟩

/-- Extract the successfully constructed value of an `Except`, with an
explicit fallback. -/
def exGet {α : Type} (e : Except String α) (fallback : α) : α :=
  match e with
  | Except.ok a => a
  | Except.error _ => fallback

/-- A degenerate encoder block, used only as an `exGet` fallback. -/
def junkEncoderBlock : EncoderBlock :=
  ⟨⟨0, 0, 0, 0, 0, 0, 0, fun _ _ _ _ => 0, none⟩, false, false, none⟩

/-- A degenerate decoder block, used only as an `exGet` fallback. -/
def junkDecoderBlock : DecoderBlock :=
  ⟨⟨0, 0, 0, 0, 0, fun _ _ _ _ => 0, none⟩, 0, ⟨0, fun _ _ => 1⟩, false, false, none⟩

/-- A concrete `Discriminator` instance: default channel counts, no
bias, batch normalization, zero weights. -/
def dsc0 : Discriminator :=
  exGet (mkDiscriminator 3 1 false ("batch") zeroInit)
    ⟨junkEncoderBlock, junkEncoderBlock, junkEncoderBlock, junkEncoderBlock, junkEncoderBlock⟩

/-- A concrete `Discriminator286` instance: default channel counts, no
bias, batch normalization, zero weights. -/
def d286c : Discriminator286 :=
  exGet (mkDiscriminator286 3 1 false ("batch") zeroInit)
    ⟨junkEncoderBlock, junkEncoderBlock, junkEncoderBlock, junkEncoderBlock,
      junkEncoderBlock, junkEncoderBlock, junkEncoderBlock⟩

/-- A concrete `Generator` instance: 3-to-3 channels, no bias, dropout
probability `1/2`, batch normalization, zero weights. -/
def gen0 : Generator :=
  exGet (mkGenerator 3 3 false (1/2) ("batch") zeroInit)
    ⟨junkEncoderBlock, junkEncoderBlock, junkEncoderBlock, junkEncoderBlock,
      junkEncoderBlock, junkEncoderBlock, junkEncoderBlock, junkEncoderBlock,
      junkDecoderBlock, junkDecoderBlock, junkDecoderBlock, junkDecoderBlock,
      junkDecoderBlock, junkDecoderBlock, junkDecoderBlock, junkDecoderBlock⟩

/-- A concrete `EncoderBlock` at the default geometry (kernel 4, stride
2, padding 1), 3-to-8 channels, batch normalization, zero weights. -/
def eb0 : EncoderBlock :=
  exGet (mkEncoderBlock 3 8 4 2 1 1 1 false true ("batch") true (fun _ _ _ _ => 0) (fun _ => 0))
    junkEncoderBlock

/-- A concrete `DecoderBlock` at the default geometry, 3-to-8 channels,
batch normalization, dropout probability `1/2`, zero weights. -/
def db0 : DecoderBlock :=
  exGet (mkDecoderBlock 3 8 4 2 1 false true ("batch") true (1/2)
    (fun _ _ _ _ => 0) (fun _ => 0) (fun _ _ => 1)) junkDecoderBlock

/-- The all-zero `(1, 3, 16, 16)` input tensor. -/
def x16 : Tensor := ⟨1, 3, 16, 16, fun _ _ _ _ => 0⟩

end

/-! ## Helper lemmas -/

theorem map_n (f : ℝ → ℝ) (t : Tensor) : (Tensor.map f t).n = t.n := rfl

theorem map_c (f : ℝ → ℝ) (t : Tensor) : (Tensor.map f t).c = t.c := rfl

theorem map_h (f : ℝ → ℝ) (t : Tensor) : (Tensor.map f t).h = t.h := rfl

theorem map_w (f : ℝ → ℝ) (t : Tensor) : (Tensor.map f t).w = t.w := rfl

theorem map_data (f : ℝ → ℝ) (t : Tensor) (n c i j : ℕ) :
    (Tensor.map f t).data n c i j = f (t.data n c i j) := rfl

theorem encoder_forward_n (b : EncoderBlock) (x : Tensor) :
    (b.forward x).n = x.n := by
  unfold EncoderBlock.forward
  by_cases h1 : b.do_activation <;> by_cases h2 : b.do_norm <;> simp [h1, h2] <;> rfl

theorem encoder_forward_c (b : EncoderBlock) (x : Tensor) :
    (b.forward x).c = b.conv.out_channels := by
  unfold EncoderBlock.forward
  by_cases h1 : b.do_activation <;> by_cases h2 : b.do_norm <;> simp [h1, h2] <;> rfl

theorem encoder_forward_h (b : EncoderBlock) (x : Tensor) :
    (b.forward x).h =
      convOutDim x.h b.conv.kernel_size b.conv.stride b.conv.padding b.conv.dilation := by
  unfold EncoderBlock.forward
  by_cases h1 : b.do_activation <;> by_cases h2 : b.do_norm <;> simp [h1, h2] <;> rfl

theorem encoder_forward_w (b : EncoderBlock) (x : Tensor) :
    (b.forward x).w =
      convOutDim x.w b.conv.kernel_size b.conv.stride b.conv.padding b.conv.dilation := by
  unfold EncoderBlock.forward
  by_cases h1 : b.do_activation <;> by_cases h2 : b.do_norm <;> simp [h1, h2] <;> rfl

theorem decoder_forward_n (b : DecoderBlock) (x : Tensor) :
    (b.forward x).n = x.n := by
  unfold DecoderBlock.forward
  by_cases h1 : b.do_activation <;> by_cases h2 : b.do_norm <;>
    by_cases h3 : b.dropout_prob ≠ 0 <;> simp [h1, h2, h3] <;> rfl

theorem decoder_forward_c (b : DecoderBlock) (x : Tensor) :
    (b.forward x).c = b.convT.out_channels := by
  unfold DecoderBlock.forward
  by_cases h1 : b.do_activation <;> by_cases h2 : b.do_norm <;>
    by_cases h3 : b.dropout_prob ≠ 0 <;> simp [h1, h2, h3] <;> rfl

theorem decoder_forward_h (b : DecoderBlock) (x : Tensor) :
    (b.forward x).h = convTOutDim x.h b.convT.kernel_size b.convT.stride b.convT.padding := by
  unfold DecoderBlock.forward
  by_cases h1 : b.do_activation <;> by_cases h2 : b.do_norm <;>
    by_cases h3 : b.dropout_prob ≠ 0 <;> simp [h1, h2, h3] <;> rfl

theorem decoder_forward_w (b : DecoderBlock) (x : Tensor) :
    (b.forward x).w = convTOutDim x.w b.convT.kernel_size b.convT.stride b.convT.padding := by
  unfold DecoderBlock.forward
  by_cases h1 : b.do_activation <;> by_cases h2 : b.do_norm <;>
    by_cases h3 : b.dropout_prob ≠ 0 <;> simp [h1, h2, h3] <;> rfl

theorem sigmoidR_bounds (x : ℝ) : 0 ≤ sigmoidR x ∧ sigmoidR x ≤ 1 := by
  unfold sigmoidR
  have hp : (0 : ℝ) < 1 + Real.exp (-x) := by positivity
  constructor
  · positivity
  · rw [div_le_one hp]
    linarith [Real.exp_pos (-x)]

theorem tanhR_bounds (x : ℝ) : -1 ≤ tanhR x ∧ tanhR x ≤ 1 := by
  unfold tanhR
  have hp : (0 : ℝ) < Real.exp x + Real.exp (-x) := by positivity
  constructor
  · rw [le_div_iff₀ hp]
    linarith [Real.exp_pos x, Real.exp_pos (-x)]
  · rw [div_le_one hp]
    linarith [Real.exp_pos (-x)]

theorem exbind_ok {α β : Type} {x : Except String α} {f : α → Except String β} {b : β} :
    (x >>= f) = Except.ok b ↔ ∃ a, x = Except.ok a ∧ f a = Except.ok b := by
  cases x <;> simp [Bind.bind, Except.bind]

theorem expure_ok {α : Type} {a b : α} :
    (pure a : Except String α) = Except.ok b ↔ a = b := by
  constructor
  · intro h; injection h
  · intro h; rw [h]; rfl

theorem mkEncoderBlock_ok_fields
    {cin cout k s p dil g : ℕ} {bias dn da : Bool} {nrm : String}
    {wt : ℕ → ℕ → ℕ → ℕ → ℝ} {bw : ℕ → ℝ} {b : EncoderBlock}
    (h : mkEncoderBlock cin cout k s p dil g bias dn nrm da wt bw = Except.ok b) :
    b.conv.in_channels = cin ∧ b.conv.out_channels = cout ∧ b.conv.kernel_size = k ∧
    b.conv.stride = s ∧ b.conv.padding = p ∧ b.conv.dilation = dil ∧ b.conv.groups = g ∧
    b.do_norm = dn ∧ b.do_activation = da := by
  unfold mkEncoderBlock at h
  cases hr : resolveNorm dn nrm cout with
  | error e => rw [hr] at h; exact absurd h (by simp)
  | ok nl =>
      rw [hr] at h
      injection h with h
      subst h
      exact ⟨rfl, rfl, rfl, rfl, rfl, rfl, rfl, rfl, rfl⟩

theorem mkDecoderBlock_ok_fields
    {cin cout k s p : ℕ} {bias dn da : Bool} {nrm : String} {dp : ℚ}
    {wt : ℕ → ℕ → ℕ → ℕ → ℝ} {bw : ℕ → ℝ} {mask : ℕ → ℕ → ℝ} {b : DecoderBlock}
    (h : mkDecoderBlock cin cout k s p bias dn nrm da dp wt bw mask = Except.ok b) :
    b.convT.in_channels = cin ∧ b.convT.out_channels = cout ∧ b.convT.kernel_size = k ∧
    b.convT.stride = s ∧ b.convT.padding = p ∧
    b.dropout_prob = dp ∧ b.do_norm = dn ∧ b.do_activation = da := by
  unfold mkDecoderBlock at h
  cases hr : resolveNorm dn nrm cout with
  | error e => rw [hr] at h; exact absurd h (by simp)
  | ok nl =>
      rw [hr] at h
      injection h with h
      subst h
      exact ⟨rfl, rfl, rfl, rfl, rfl, rfl, rfl, rfl⟩

theorem mkDiscriminator_ok_parts
    {ic oc : ℕ} {bias : Bool} {nrm : String} {pr : InitParams} {d : Discriminator}
    (h : mkDiscriminator ic oc bias nrm pr = Except.ok d) :
    mkEncoderBlock (ic * 2) 64 4 2 1 1 1 bias false ("batch") false (pr.we 1) (pr.be 1)
      = Except.ok d.disc1 ∧
    mkEncoderBlock 64 128 4 2 1 1 1 bias true nrm true (pr.we 2) (pr.be 2) = Except.ok d.disc2 ∧
    mkEncoderBlock 128 256 4 2 1 1 1 bias true nrm true (pr.we 3) (pr.be 3) = Except.ok d.disc3 ∧
    mkEncoderBlock 256 512 4 1 1 1 1 bias true nrm true (pr.we 4) (pr.be 4) = Except.ok d.disc4 ∧
    mkEncoderBlock 512 oc 4 1 1 1 1 bias false ("batch") true (pr.we 5) (pr.be 5)
      = Except.ok d.disc5 := by
  unfold mkDiscriminator at h
  rcases exbind_ok.mp h with ⟨b1, h1, h⟩
  rcases exbind_ok.mp h with ⟨b2, h2, h⟩
  rcases exbind_ok.mp h with ⟨b3, h3, h⟩
  rcases exbind_ok.mp h with ⟨b4, h4, h⟩
  rcases exbind_ok.mp h with ⟨b5, h5, h⟩
  rw [expure_ok] at h
  subst h
  exact ⟨h1, h2, h3, h4, h5⟩

theorem mkDiscriminator286_ok_parts
    {ic oc : ℕ} {bias : Bool} {nrm : String} {pr : InitParams} {d : Discriminator286}
    (h : mkDiscriminator286 ic oc bias nrm pr = Except.ok d) :
    mkEncoderBlock (ic * 2) 64 4 2 1 1 1 bias false ("batch") false (pr.we 1) (pr.be 1)
      = Except.ok d.disc1 ∧
    mkEncoderBlock 64 128 4 2 1 1 1 bias true nrm true (pr.we 2) (pr.be 2) = Except.ok d.disc2 ∧
    mkEncoderBlock 128 256 4 2 1 1 1 bias true nrm true (pr.we 3) (pr.be 3) = Except.ok d.disc3 ∧
    mkEncoderBlock 256 512 4 2 1 1 1 bias true nrm true (pr.we 4) (pr.be 4) = Except.ok d.disc4 ∧
    mkEncoderBlock 512 512 4 2 1 1 1 bias true nrm true (pr.we 5) (pr.be 5) = Except.ok d.disc5 ∧
    mkEncoderBlock 512 512 4 1 1 1 1 bias true nrm true (pr.we 6) (pr.be 6) = Except.ok d.disc6 ∧
    mkEncoderBlock 512 oc 4 1 1 1 1 bias false ("batch") true (pr.we 7) (pr.be 7)
      = Except.ok d.disc7 := by
  unfold mkDiscriminator286 at h
  rcases exbind_ok.mp h with ⟨b1, h1, h⟩
  rcases exbind_ok.mp h with ⟨b2, h2, h⟩
  rcases exbind_ok.mp h with ⟨b3, h3, h⟩
  rcases exbind_ok.mp h with ⟨b4, h4, h⟩
  rcases exbind_ok.mp h with ⟨b5, h5, h⟩
  rcases exbind_ok.mp h with ⟨b6, h6, h⟩
  rcases exbind_ok.mp h with ⟨b7, h7, h⟩
  rw [expure_ok] at h
  subst h
  exact ⟨h1, h2, h3, h4, h5, h6, h7⟩

theorem mkGenerator_ok_parts
    {ic oc : ℕ} {bias : Bool} {dp : ℚ} {nrm : String} {pr : InitParams} {g : Generator}
    (h : mkGenerator ic oc bias dp nrm pr = Except.ok g) :
    mkEncoderBlock ic 64 4 2 1 1 1 bias false ("batch") false (pr.we 1) (pr.be 1)
      = Except.ok g.encoder1 ∧
    mkEncoderBlock 64 128 4 2 1 1 1 bias true nrm true (pr.we 2) (pr.be 2) = Except.ok g.encoder2 ∧
    mkEncoderBlock 128 256 4 2 1 1 1 bias true nrm true (pr.we 3) (pr.be 3) = Except.ok g.encoder3 ∧
    mkEncoderBlock 256 512 4 2 1 1 1 bias true nrm true (pr.we 4) (pr.be 4) = Except.ok g.encoder4 ∧
    mkEncoderBlock 512 512 4 2 1 1 1 bias true nrm true (pr.we 5) (pr.be 5) = Except.ok g.encoder5 ∧
    mkEncoderBlock 512 512 4 2 1 1 1 bias true nrm true (pr.we 6) (pr.be 6) = Except.ok g.encoder6 ∧
    mkEncoderBlock 512 512 4 2 1 1 1 bias true nrm true (pr.we 7) (pr.be 7) = Except.ok g.encoder7 ∧
    mkEncoderBlock 512 512 4 2 1 1 1 bias false ("batch") true (pr.we 8) (pr.be 8)
      = Except.ok g.encoder8 ∧
    mkDecoderBlock 512 512 4 2 1 bias true nrm true 0 (pr.wd 1) (pr.bd 1) (pr.dmask 1)
      = Except.ok g.decoder1 ∧
    mkDecoderBlock 1024 512 4 2 1 bias true nrm true dp (pr.wd 2) (pr.bd 2) (pr.dmask 2)
      = Except.ok g.decoder2 ∧
    mkDecoderBlock 1024 512 4 2 1 bias true nrm true dp (pr.wd 3) (pr.bd 3) (pr.dmask 3)
      = Except.ok g.decoder3 ∧
    mkDecoderBlock 1024 512 4 2 1 bias true nrm true dp (pr.wd 4) (pr.bd 4) (pr.dmask 4)
      = Except.ok g.decoder4 ∧
    mkDecoderBlock 1024 256 4 2 1 bias true nrm true 0 (pr.wd 5) (pr.bd 5) (pr.dmask 5)
      = Except.ok g.decoder5 ∧
    mkDecoderBlock 512 128 4 2 1 bias true nrm true 0 (pr.wd 6) (pr.bd 6) (pr.dmask 6)
      = Except.ok g.decoder6 ∧
    mkDecoderBlock 256 64 4 2 1 bias true nrm true 0 (pr.wd 7) (pr.bd 7) (pr.dmask 7)
      = Except.ok g.decoder7 ∧
    mkDecoderBlock 128 oc 4 2 1 bias false ("batch") true 0 (pr.wd 8) (pr.bd 8) (pr.dmask 8)
      = Except.ok g.decoder8 := by
  unfold mkGenerator at h
  rcases exbind_ok.mp h with ⟨e1, he1, h⟩
  rcases exbind_ok.mp h with ⟨e2, he2, h⟩
  rcases exbind_ok.mp h with ⟨e3, he3, h⟩
  rcases exbind_ok.mp h with ⟨e4, he4, h⟩
  rcases exbind_ok.mp h with ⟨e5, he5, h⟩
  rcases exbind_ok.mp h with ⟨e6, he6, h⟩
  rcases exbind_ok.mp h with ⟨e7, he7, h⟩
  rcases exbind_ok.mp h with ⟨e8, he8, h⟩
  rcases exbind_ok.mp h with ⟨d1, hd1, h⟩
  rcases exbind_ok.mp h with ⟨d2, hd2, h⟩
  rcases exbind_ok.mp h with ⟨d3, hd3, h⟩
  rcases exbind_ok.mp h with ⟨d4, hd4, h⟩
  rcases exbind_ok.mp h with ⟨d5, hd5, h⟩
  rcases exbind_ok.mp h with ⟨d6, hd6, h⟩
  rcases exbind_ok.mp h with ⟨d7, hd7, h⟩
  rcases exbind_ok.mp h with ⟨d8, hd8, h⟩
  rw [expure_ok] at h
  subst h
  exact ⟨he1, he2, he3, he4, he5, he6, he7, he8,
    hd1, hd2, hd3, hd4, hd5, hd6, hd7, hd8⟩

theorem concat_n (a b : Tensor) : (concatChannel a b).n = a.n := rfl

theorem concat_c (a b : Tensor) : (concatChannel a b).c = a.c + b.c := rfl

theorem concat_h (a b : Tensor) : (concatChannel a b).h = a.h := rfl

theorem concat_w (a b : Tensor) : (concatChannel a b).w = a.w := rfl

theorem concat_data_lo (a b : Tensor) (n c i j : ℕ) (hc : c < a.c) :
    (concatChannel a b).data n c i j = a.data n c i j := by
  simp [concatChannel, hc]

theorem concat_data_hi (a b : Tensor) (n c i j : ℕ) :
    (concatChannel a b).data n (a.c + c) i j = b.data n c i j := by
  simp [concatChannel]

/-! ## Claim theorems -/

/-- C7: for every valid configuration, `EncoderBlock(Cin, Cout,
stride=2, kernel_size=4, padding=1)` applied to an `(N, Cin, H, W)`
tensor with `H` and `W` even (and nonempty, so the 4x4 kernel fits the
padded input) produces exactly `(N, Cout, H/2, W/2)`, computed by the
strictly ordered pipeline: leaky rectification (slope 0.2) when
activation is enabled, then the strided convolution, then normalization
when enabled. -/
theorem encoderBlock_halves
    (cin cout : ℕ) (bias dn da : Bool) (nrm : String)
    (wt : ℕ → ℕ → ℕ → ℕ → ℝ) (bw : ℕ → ℝ) (b : EncoderBlock)
    (h : mkEncoderBlock cin cout 4 2 1 1 1 bias dn nrm da wt bw = Except.ok b)
    (x : Tensor) (_hcin : x.c = cin) (heh : Even x.h) (hew : Even x.w)
    (hh2 : 2 ≤ x.h) (hw2 : 2 ≤ x.w) :
    (b.forward x).shape = (x.n, cout, x.h / 2, x.w / 2) ∧
    b.forward x =
      (if b.do_norm
        then Norm2d.applyOpt b.normLayer
          (b.conv.apply (if b.do_activation then Tensor.map leakyRelu x else x))
        else b.conv.apply (if b.do_activation then Tensor.map leakyRelu x else x)) := by
  obtain ⟨i1, o1, k1, s1, p1, dil1, g1, n1, a1⟩ := mkEncoderBlock_ok_fields h
  refine ⟨?_, rfl⟩
  obtain ⟨r, hr⟩ := heh
  obtain ⟨q, hq⟩ := hew
  simp only [Tensor.shape, encoder_forward_n, encoder_forward_c, encoder_forward_h,
    encoder_forward_w, k1, s1, p1, dil1, o1, Prod.mk.injEq]
  refine ⟨trivial, trivial, ?_, ?_⟩ <;> unfold convOutDim <;> omega

/-- C8: for every valid configuration, `DecoderBlock(Cin, Cout,
stride=2, kernel_size=4, padding=1)` applied to a nonempty
`(N, Cin, H, W)` tensor produces exactly `(N, Cout, H*2, W*2)`, computed
by the strictly ordered pipeline: non-leaky rectification when
activation is enabled, then the transposed convolution, then
normalization when enabled, then dropout exactly when the dropout
probability is nonzero. -/
theorem decoderBlock_doubles
    (cin cout : ℕ) (bias dn da : Bool) (nrm : String) (dp : ℚ)
    (wt : ℕ → ℕ → ℕ → ℕ → ℝ) (bw : ℕ → ℝ) (mask : ℕ → ℕ → ℝ) (b : DecoderBlock)
    (h : mkDecoderBlock cin cout 4 2 1 bias dn nrm da dp wt bw mask = Except.ok b)
    (x : Tensor) (_hcin : x.c = cin) (hh1 : 1 ≤ x.h) (hw1 : 1 ≤ x.w) :
    (b.forward x).shape = (x.n, cout, x.h * 2, x.w * 2) ∧
    b.forward x =
      ((fun x3 => if b.dropout_prob ≠ 0 then b.drop.apply x3 else x3)
        (if b.do_norm
          then Norm2d.applyOpt b.normLayer
            (b.convT.apply (if b.do_activation then Tensor.map reluR x else x))
          else b.convT.apply (if b.do_activation then Tensor.map reluR x else x))) := by
  obtain ⟨i1, o1, k1, s1, p1, dp1, n1, a1⟩ := mkDecoderBlock_ok_fields h
  refine ⟨?_, rfl⟩
  simp only [Tensor.shape, decoder_forward_n, decoder_forward_c, decoder_forward_h,
    decoder_forward_w, k1, s1, p1, o1, Prod.mk.injEq]
  refine ⟨trivial, trivial, ?_, ?_⟩ <;> unfold convTOutDim <;> omega

/-- Witness for C7: the concrete block `eb0` applied to the all-zero
`(1, 3, 16, 16)` tensor yields shape `(1, 8, 8, 8)`. -/
theorem encoderBlock_halves_witness : (eb0.forward x16).shape = (1, 8, 8, 8) :=
  (encoderBlock_halves 3 8 false true true ("batch") (fun _ _ _ _ => 0) (fun _ => 0) eb0
    rfl x16 rfl (by decide) (by decide) (by decide) (by decide)).1

/-- Witness for C8: the concrete block `db0` applied to the all-zero
`(1, 3, 16, 16)` tensor yields shape `(1, 8, 32, 32)`. -/
theorem decoderBlock_doubles_witness : (db0.forward x16).shape = (1, 8, 32, 32) :=
  (decoderBlock_doubles 3 8 false true true ("batch") (1/2) (fun _ _ _ _ => 0) (fun _ => 0)
    (fun _ _ => 1) db0 rfl x16 rfl (by decide) (by decide)).1

/-- C9: constructing any block (`EncoderBlock` or `DecoderBlock`) with
normalization enabled and a mode string other than `"batch"` or
`"instance"` fails at construction time with the `"norm error"`
configuration error (no silent default); with a recognized mode,
construction succeeds. -/
theorem norm_mode_validated :
    (∀ (cin cout k s p dil g : ℕ) (bias da : Bool) (nrm : String)
        (wt : ℕ → ℕ → ℕ → ℕ → ℝ) (bw : ℕ → ℝ),
      nrm ≠ ("batch") → nrm ≠ ("instance") →
      mkEncoderBlock cin cout k s p dil g bias true nrm da wt bw
        = Except.error ("norm error")) ∧
    (∀ (cin cout k s p : ℕ) (bias da : Bool) (nrm : String) (dp : ℚ)
        (wt : ℕ → ℕ → ℕ → ℕ → ℝ) (bw : ℕ → ℝ) (mask : ℕ → ℕ → ℝ),
      nrm ≠ ("batch") → nrm ≠ ("instance") →
      mkDecoderBlock cin cout k s p bias true nrm da dp wt bw mask
        = Except.error ("norm error")) ∧
    (∀ (cin cout k s p dil g : ℕ) (bias da : Bool)
        (wt : ℕ → ℕ → ℕ → ℕ → ℝ) (bw : ℕ → ℝ),
      (∃ b, mkEncoderBlock cin cout k s p dil g bias true ("batch") da wt bw = Except.ok b) ∧
      (∃ b, mkEncoderBlock cin cout k s p dil g bias true ("instance") da wt bw
        = Except.ok b)) ∧
    (∀ (cin cout k s p : ℕ) (bias da : Bool) (dp : ℚ)
        (wt : ℕ → ℕ → ℕ → ℕ → ℝ) (bw : ℕ → ℝ) (mask : ℕ → ℕ → ℝ),
      (∃ b, mkDecoderBlock cin cout k s p bias true ("batch") da dp wt bw mask
        = Except.ok b) ∧
      (∃ b, mkDecoderBlock cin cout k s p bias true ("instance") da dp wt bw mask
        = Except.ok b)) := by
  refine ⟨?_, ?_, ?_, ?_⟩
  · intro cin cout k s p dil g bias da nrm wt bw hb hi
    unfold mkEncoderBlock resolveNorm
    simp [hb, hi]
  · intro cin cout k s p bias da nrm dp wt bw mask hb hi
    unfold mkDecoderBlock resolveNorm
    simp [hb, hi]
  · intro cin cout k s p dil g bias da wt bw
    exact ⟨⟨_, rfl⟩, ⟨_, rfl⟩⟩
  · intro cin cout k s p bias da dp wt bw mask
    exact ⟨⟨_, rfl⟩, ⟨_, rfl⟩⟩

/-- Witness for C9: the unrecognized mode `"group"` is rejected with
`"norm error"` on both block kinds, while `"batch"` and `"instance"`
are accepted. -/
theorem norm_mode_validated_witness :
    mkEncoderBlock 3 8 4 2 1 1 1 false true ("group") true (fun _ _ _ _ => 0) (fun _ => 0)
      = Except.error ("norm error") ∧
    mkDecoderBlock 3 8 4 2 1 false true ("group") true 0 (fun _ _ _ _ => 0) (fun _ => 0)
      (fun _ _ => 1) = Except.error ("norm error") ∧
    (∃ b, mkEncoderBlock 3 8 4 2 1 1 1 false true ("batch") true (fun _ _ _ _ => 0)
      (fun _ => 0) = Except.ok b) ∧
    (∃ b, mkDecoderBlock 3 8 4 2 1 false true ("instance") true 0 (fun _ _ _ _ => 0)
      (fun _ => 0) (fun _ _ => 1) = Except.ok b) :=
  ⟨norm_mode_validated.1 3 8 4 2 1 1 1 false true ("group") (fun _ _ _ _ => 0) (fun _ => 0)
      (by decide) (by decide),
   norm_mode_validated.2.1 3 8 4 2 1 false true ("group") 0 (fun _ _ _ _ => 0) (fun _ => 0)
      (fun _ _ => 1) (by decide) (by decide),
   (norm_mode_validated.2.2.1 3 8 4 2 1 1 1 false true (fun _ _ _ _ => 0) (fun _ => 0)).1,
   (norm_mode_validated.2.2.2 3 8 4 2 1 false true 0 (fun _ _ _ _ => 0) (fun _ => 0)
      (fun _ _ => 1)).2⟩

/-- C10: with `do_norm = False`, constructing an `EncoderBlock` or a
`DecoderBlock` succeeds for every normalization mode string (the mode is
never validated), and the resulting block's forward pass applies no
normalization. -/
theorem no_norm_mode_unchecked :
    (∀ (cin cout k s p dil g : ℕ) (bias da : Bool) (nrm : String)
        (wt : ℕ → ℕ → ℕ → ℕ → ℝ) (bw : ℕ → ℝ),
      (∃ b, mkEncoderBlock cin cout k s p dil g bias false nrm da wt bw = Except.ok b) ∧
      (∀ b, mkEncoderBlock cin cout k s p dil g bias false nrm da wt bw = Except.ok b →
        ∀ x, b.forward x =
          b.conv.apply (if b.do_activation then Tensor.map leakyRelu x else x))) ∧
    (∀ (cin cout k s p : ℕ) (bias da : Bool) (nrm : String) (dp : ℚ)
        (wt : ℕ → ℕ → ℕ → ℕ → ℝ) (bw : ℕ → ℝ) (mask : ℕ → ℕ → ℝ),
      (∃ b, mkDecoderBlock cin cout k s p bias false nrm da dp wt bw mask = Except.ok b) ∧
      (∀ b, mkDecoderBlock cin cout k s p bias false nrm da dp wt bw mask = Except.ok b →
        ∀ x, b.forward x =
          (if b.dropout_prob ≠ 0
            then b.drop.apply (b.convT.apply (if b.do_activation then Tensor.map reluR x else x))
            else b.convT.apply (if b.do_activation then Tensor.map reluR x else x)))) := by
  constructor
  · intro cin cout k s p dil g bias da nrm wt bw
    refine ⟨⟨_, rfl⟩, ?_⟩
    intro b hb x
    obtain ⟨-, -, -, -, -, -, -, hn, -⟩ := mkEncoderBlock_ok_fields hb
    unfold EncoderBlock.forward
    rw [hn]
    simp
  · intro cin cout k s p bias da nrm dp wt bw mask
    refine ⟨⟨_, rfl⟩, ?_⟩
    intro b hb x
    obtain ⟨-, -, -, -, -, -, hn, -⟩ := mkDecoderBlock_ok_fields hb
    unfold DecoderBlock.forward
    rw [hn]
    simp

/-- Witness for C10: with `do_norm = False` the unrecognized mode
`"group"` is accepted on both block kinds, and the resulting encoder
block's forward pass is the bare activation-then-convolution pipeline.
-/
theorem no_norm_mode_unchecked_witness :
    (∃ b, mkEncoderBlock 3 8 4 2 1 1 1 false false ("group") true (fun _ _ _ _ => 0)
      (fun _ => 0) = Except.ok b) ∧
    (∃ b, mkDecoderBlock 3 8 4 2 1 false false ("group") true 0 (fun _ _ _ _ => 0)
      (fun _ => 0) (fun _ _ => 1) = Except.ok b) :=
  ⟨(no_norm_mode_unchecked.1 3 8 4 2 1 1 1 false true ("group") (fun _ _ _ _ => 0)
      (fun _ => 0)).1,
   (no_norm_mode_unchecked.2 3 8 4 2 1 false true ("group") 0 (fun _ _ _ _ => 0)
      (fun _ => 0) (fun _ _ => 1)).1⟩

/-- C4: `Discriminator.forward` applied to two `(1, 3, 256, 256)`
tensors (channel-concatenated as `(candidate, reference)` before the
first block) produces a `(1, 1, 30, 30)` map whose values all lie in
`[0, 1]`. -/
theorem discriminator_io_contract
    (bias : Bool) (nrm : String) (pr : InitParams) (d : Discriminator)
    (h : mkDiscriminator 3 1 bias nrm pr = Except.ok d)
    (x ref : Tensor)
    (hx : x.shape = (1, 3, 256, 256)) (_href : ref.shape = (1, 3, 256, 256)) :
    (d.forward x ref).shape = (1, 1, 30, 30) ∧
    (∀ n c i j, 0 ≤ (d.forward x ref).data n c i j ∧ (d.forward x ref).data n c i j ≤ 1) ∧
    d.forward x ref =
      Tensor.map sigmoidR
        (d.disc5.forward (d.disc4.forward (d.disc3.forward (d.disc2.forward
          (d.disc1.forward (concatChannel x ref)))))) := by
  obtain ⟨h1, h2, h3, h4, h5⟩ := mkDiscriminator_ok_parts h
  obtain ⟨i1, o1, k1, s1, p1, q1, g1, n1, a1⟩ := mkEncoderBlock_ok_fields h1
  obtain ⟨i2, o2, k2, s2, p2, q2, g2, n2, a2⟩ := mkEncoderBlock_ok_fields h2
  obtain ⟨i3, o3, k3, s3, p3, q3, g3, n3, a3⟩ := mkEncoderBlock_ok_fields h3
  obtain ⟨i4, o4, k4, s4, p4, q4, g4, n4, a4⟩ := mkEncoderBlock_ok_fields h4
  obtain ⟨i5, o5, k5, s5, p5, q5, g5, n5, a5⟩ := mkEncoderBlock_ok_fields h5
  refine ⟨?_, ?_, rfl⟩
  · simp only [Tensor.shape, Prod.mk.injEq] at hx
    obtain ⟨hxn, hxc, hxh, hxw⟩ := hx
    simp only [Tensor.shape, Discriminator.forward, map_n, map_c, map_h, map_w,
      encoder_forward_n, encoder_forward_c, encoder_forward_h, encoder_forward_w,
      concat_n, concat_h, concat_w,
      k1, s1, p1, q1, o1, k2, s2, p2, q2, o2, k3, s3, p3, q3, o3,
      k4, s4, p4, q4, o4, k5, s5, p5, q5, o5, hxn, hxh, hxw, Prod.mk.injEq]
    refine ⟨trivial, trivial, ?_, ?_⟩ <;> decide
  · intro n c i j
    simp only [Discriminator.forward, map_data]
    exact sigmoidR_bounds _

/-- Witness for C4: the concrete discriminator `dsc0` on two all-zero
`(1, 3, 256, 256)` tensors yields shape `(1, 1, 30, 30)` and a value in
`[0, 1]` at index `(0, 0, 0, 0)`. -/
theorem discriminator_io_contract_witness :
    (dsc0.forward x256 x256).shape = (1, 1, 30, 30) ∧
    0 ≤ (dsc0.forward x256 x256).data 0 0 0 0 ∧
    (dsc0.forward x256 x256).data 0 0 0 0 ≤ 1 :=
  ⟨(discriminator_io_contract false ("batch") zeroInit dsc0 rfl x256 x256 rfl rfl).1,
   ((discriminator_io_contract false ("batch") zeroInit dsc0 rfl x256 x256 rfl rfl).2.1
      0 0 0 0).1,
   ((discriminator_io_contract false ("batch") zeroInit dsc0 rfl x256 x256 rfl rfl).2.1
      0 0 0 0).2⟩

/-- C1 (counterexample): the concrete `Discriminator286` instance
`d286c` applied to two all-zero `(1, 3, 256, 256)` tensors produces a
map of spatial size 6, not 14: the five stride-2 blocks take 256 down to
8, and the two stride-1 blocks take 8 to 6. -/
theorem disc286_not_14 :
    (d286c.forward x256 x256).h = 6 ∧ (d286c.forward x256 x256).h ≠ 14 := by
  decide

/-- C1 (amended): `Discriminator286.forward` applied to two
`(1, 3, 256, 256)` input tensors produces a `(1, 1, 6, 6)` output map
whose values all lie in `[0, 1]`. -/
theorem disc286_io_contract
    (bias : Bool) (nrm : String) (pr : InitParams) (d : Discriminator286)
    (h : mkDiscriminator286 3 1 bias nrm pr = Except.ok d)
    (x ref : Tensor)
    (hx : x.shape = (1, 3, 256, 256)) (_href : ref.shape = (1, 3, 256, 256)) :
    (d.forward x ref).shape = (1, 1, 6, 6) ∧
    (∀ n c i j, 0 ≤ (d.forward x ref).data n c i j ∧ (d.forward x ref).data n c i j ≤ 1) := by
  obtain ⟨h1, h2, h3, h4, h5, h6, h7⟩ := mkDiscriminator286_ok_parts h
  obtain ⟨i1, o1, k1, s1, p1, q1, g1, n1, a1⟩ := mkEncoderBlock_ok_fields h1
  obtain ⟨i2, o2, k2, s2, p2, q2, g2, n2, a2⟩ := mkEncoderBlock_ok_fields h2
  obtain ⟨i3, o3, k3, s3, p3, q3, g3, n3, a3⟩ := mkEncoderBlock_ok_fields h3
  obtain ⟨i4, o4, k4, s4, p4, q4, g4, n4, a4⟩ := mkEncoderBlock_ok_fields h4
  obtain ⟨i5, o5, k5, s5, p5, q5, g5, n5, a5⟩ := mkEncoderBlock_ok_fields h5
  obtain ⟨i6, o6, k6, s6, p6, q6, g6, n6, a6⟩ := mkEncoderBlock_ok_fields h6
  obtain ⟨i7, o7, k7, s7, p7, q7, g7, n7, a7⟩ := mkEncoderBlock_ok_fields h7
  refine ⟨?_, ?_⟩
  · simp only [Tensor.shape, Prod.mk.injEq] at hx
    obtain ⟨hxn, hxc, hxh, hxw⟩ := hx
    simp only [Tensor.shape, Discriminator286.forward, map_n, map_c, map_h, map_w,
      encoder_forward_n, encoder_forward_c, encoder_forward_h, encoder_forward_w,
      concat_n, concat_h, concat_w,
      k1, s1, p1, q1, o1, k2, s2, p2, q2, o2, k3, s3, p3, q3, o3, k4, s4, p4, q4, o4,
      k5, s5, p5, q5, o5, k6, s6, p6, q6, o6, k7, s7, p7, q7, o7,
      hxn, hxh, hxw, Prod.mk.injEq]
    refine ⟨trivial, trivial, ?_, ?_⟩ <;> decide
  · intro n c i j
    simp only [Discriminator286.forward, map_data]
    exact sigmoidR_bounds _

/-- Witness for C1 (amended): the concrete `Discriminator286` instance
`d286c` on two all-zero `(1, 3, 256, 256)` tensors yields shape
`(1, 1, 6, 6)` and a value in `[0, 1]` at index `(0, 0, 0, 0)`. -/
theorem disc286_io_contract_witness :
    (d286c.forward x256 x256).shape = (1, 1, 6, 6) ∧
    0 ≤ (d286c.forward x256 x256).data 0 0 0 0 ∧
    (d286c.forward x256 x256).data 0 0 0 0 ≤ 1 :=
  ⟨(disc286_io_contract false ("batch") zeroInit d286c rfl x256 x256 rfl rfl).1,
   ((disc286_io_contract false ("batch") zeroInit d286c rfl x256 x256 rfl rfl).2
      0 0 0 0).1,
   ((disc286_io_contract false ("batch") zeroInit d286c rfl x256 x256 rfl rfl).2
      0 0 0 0).2⟩

/-- C2 (counterexample): in the concrete `Discriminator286` instance
`d286c`, the fifth of the seven blocks — the third from the end, which
the claim says is constructed with stride 1 — has stride 2. -/
theorem disc286_fifth_block_strided :
    d286c.disc5.conv.stride = 2 ∧ d286c.disc5.conv.stride ≠ 1 := by
  decide

/-- C2 (amended): `Discriminator286` is composed of 7 `EncoderBlock`s
with channel progression
`in_channels*2 -> 64 -> 128 -> 256 -> 512 -> 512 -> 512 -> out_channels`,
in which the final two blocks are constructed with stride 1 and the
first five blocks with stride 2. -/
theorem disc286_structure
    (ic oc : ℕ) (bias : Bool) (nrm : String) (pr : InitParams) (d : Discriminator286)
    (h : mkDiscriminator286 ic oc bias nrm pr = Except.ok d) :
    (d.disc1.conv.in_channels = ic * 2 ∧ d.disc1.conv.out_channels = 64 ∧
      d.disc1.conv.stride = 2) ∧
    (d.disc2.conv.in_channels = 64 ∧ d.disc2.conv.out_channels = 128 ∧
      d.disc2.conv.stride = 2) ∧
    (d.disc3.conv.in_channels = 128 ∧ d.disc3.conv.out_channels = 256 ∧
      d.disc3.conv.stride = 2) ∧
    (d.disc4.conv.in_channels = 256 ∧ d.disc4.conv.out_channels = 512 ∧
      d.disc4.conv.stride = 2) ∧
    (d.disc5.conv.in_channels = 512 ∧ d.disc5.conv.out_channels = 512 ∧
      d.disc5.conv.stride = 2) ∧
    (d.disc6.conv.in_channels = 512 ∧ d.disc6.conv.out_channels = 512 ∧
      d.disc6.conv.stride = 1) ∧
    (d.disc7.conv.in_channels = 512 ∧ d.disc7.conv.out_channels = oc ∧
      d.disc7.conv.stride = 1) := by
  obtain ⟨h1, h2, h3, h4, h5, h6, h7⟩ := mkDiscriminator286_ok_parts h
  obtain ⟨i1, o1, -, s1, -, -, -, -, -⟩ := mkEncoderBlock_ok_fields h1
  obtain ⟨i2, o2, -, s2, -, -, -, -, -⟩ := mkEncoderBlock_ok_fields h2
  obtain ⟨i3, o3, -, s3, -, -, -, -, -⟩ := mkEncoderBlock_ok_fields h3
  obtain ⟨i4, o4, -, s4, -, -, -, -, -⟩ := mkEncoderBlock_ok_fields h4
  obtain ⟨i5, o5, -, s5, -, -, -, -, -⟩ := mkEncoderBlock_ok_fields h5
  obtain ⟨i6, o6, -, s6, -, -, -, -, -⟩ := mkEncoderBlock_ok_fields h6
  obtain ⟨i7, o7, -, s7, -, -, -, -, -⟩ := mkEncoderBlock_ok_fields h7
  exact ⟨⟨i1, o1, s1⟩, ⟨i2, o2, s2⟩, ⟨i3, o3, s3⟩, ⟨i4, o4, s4⟩,
    ⟨i5, o5, s5⟩, ⟨i6, o6, s6⟩, ⟨i7, o7, s7⟩⟩

/-- Witness for C2 (amended): the amended structure instantiated on the
concrete instance `d286c` (first and last blocks shown). -/
theorem disc286_structure_witness :
    (d286c.disc1.conv.in_channels = 6 ∧ d286c.disc1.conv.out_channels = 64 ∧
      d286c.disc1.conv.stride = 2) ∧
    (d286c.disc7.conv.in_channels = 512 ∧ d286c.disc7.conv.out_channels = 1 ∧
      d286c.disc7.conv.stride = 1) :=
  ⟨(disc286_structure 3 1 false ("batch") zeroInit d286c rfl).1,
   (disc286_structure 3 1 false ("batch") zeroInit d286c rfl).2.2.2.2.2.2⟩

/-- C3 (counterexample): in the concrete `Discriminator` instance
`dsc0`, the third block — which the claim says is not strided — has
stride 2 (the constructor default), not stride 1. -/
theorem disc_third_block_strided :
    dsc0.disc3.conv.stride = 2 ∧ dsc0.disc3.conv.stride ≠ 1 := by
  decide

/-- C3 (amended): `Discriminator` is composed of 5 `EncoderBlock`s with
channel progression
`in_channels*2 -> 64 -> 128 -> 256 -> 512 -> out_channels`, where the
first three blocks are strided (stride 2) and the last two are at
stride 1, the first block has normalization and activation disabled,
and the last block has normalization disabled. -/
theorem disc_structure
    (ic oc : ℕ) (bias : Bool) (nrm : String) (pr : InitParams) (d : Discriminator)
    (h : mkDiscriminator ic oc bias nrm pr = Except.ok d) :
    (d.disc1.conv.in_channels = ic * 2 ∧ d.disc1.conv.out_channels = 64 ∧
      d.disc1.conv.stride = 2 ∧ d.disc1.do_norm = false ∧ d.disc1.do_activation = false) ∧
    (d.disc2.conv.in_channels = 64 ∧ d.disc2.conv.out_channels = 128 ∧
      d.disc2.conv.stride = 2 ∧ d.disc2.do_norm = true) ∧
    (d.disc3.conv.in_channels = 128 ∧ d.disc3.conv.out_channels = 256 ∧
      d.disc3.conv.stride = 2 ∧ d.disc3.do_norm = true) ∧
    (d.disc4.conv.in_channels = 256 ∧ d.disc4.conv.out_channels = 512 ∧
      d.disc4.conv.stride = 1 ∧ d.disc4.do_norm = true) ∧
    (d.disc5.conv.in_channels = 512 ∧ d.disc5.conv.out_channels = oc ∧
      d.disc5.conv.stride = 1 ∧ d.disc5.do_norm = false ∧ d.disc5.do_activation = true) := by
  obtain ⟨h1, h2, h3, h4, h5⟩ := mkDiscriminator_ok_parts h
  obtain ⟨i1, o1, -, s1, -, -, -, n1, a1⟩ := mkEncoderBlock_ok_fields h1
  obtain ⟨i2, o2, -, s2, -, -, -, n2, -⟩ := mkEncoderBlock_ok_fields h2
  obtain ⟨i3, o3, -, s3, -, -, -, n3, -⟩ := mkEncoderBlock_ok_fields h3
  obtain ⟨i4, o4, -, s4, -, -, -, n4, -⟩ := mkEncoderBlock_ok_fields h4
  obtain ⟨i5, o5, -, s5, -, -, -, n5, a5⟩ := mkEncoderBlock_ok_fields h5
  exact ⟨⟨i1, o1, s1, n1, a1⟩, ⟨i2, o2, s2, n2⟩, ⟨i3, o3, s3, n3⟩,
    ⟨i4, o4, s4, n4⟩, ⟨i5, o5, s5, n5, a5⟩⟩

/-- Witness for C3 (amended): the amended structure instantiated on the
concrete instance `dsc0` (first and last blocks shown). -/
theorem disc_structure_witness :
    (dsc0.disc1.conv.in_channels = 6 ∧ dsc0.disc1.conv.out_channels = 64 ∧
      dsc0.disc1.conv.stride = 2 ∧ dsc0.disc1.do_norm = false ∧
      dsc0.disc1.do_activation = false) ∧
    (dsc0.disc5.conv.in_channels = 512 ∧ dsc0.disc5.conv.out_channels = 1 ∧
      dsc0.disc5.conv.stride = 1 ∧ dsc0.disc5.do_norm = false ∧
      dsc0.disc5.do_activation = true) :=
  ⟨(disc_structure 3 1 false ("batch") zeroInit dsc0 rfl).1,
   (disc_structure 3 1 false ("batch") zeroInit dsc0 rfl).2.2.2.2⟩

/-- C5: `Generator.forward` applied to a `(1, 3, 256, 256)` input
produces a `(1, 3, 256, 256)` output (same spatial shape, out_channels
depth) with every value in `[-1, 1]`, the bound coming from the final
hyperbolic tangent. -/
theorem generator_io_contract
    (bias : Bool) (dp : ℚ) (nrm : String) (pr : InitParams) (g : Generator)
    (h : mkGenerator 3 3 bias dp nrm pr = Except.ok g)
    (x : Tensor) (hx : x.shape = (1, 3, 256, 256)) :
    (g.forward x).shape = (1, 3, 256, 256) ∧
    (∀ n c i j, -1 ≤ (g.forward x).data n c i j ∧ (g.forward x).data n c i j ≤ 1) := by
  obtain ⟨he1, he2, he3, he4, he5, he6, he7, he8,
    hd1, hd2, hd3, hd4, hd5, hd6, hd7, hd8⟩ := mkGenerator_ok_parts h
  obtain ⟨-, oe1, ke1, se1, pe1, qe1, -, -, -⟩ := mkEncoderBlock_ok_fields he1
  obtain ⟨-, oe2, ke2, se2, pe2, qe2, -, -, -⟩ := mkEncoderBlock_ok_fields he2
  obtain ⟨-, oe3, ke3, se3, pe3, qe3, -, -, -⟩ := mkEncoderBlock_ok_fields he3
  obtain ⟨-, oe4, ke4, se4, pe4, qe4, -, -, -⟩ := mkEncoderBlock_ok_fields he4
  obtain ⟨-, oe5, ke5, se5, pe5, qe5, -, -, -⟩ := mkEncoderBlock_ok_fields he5
  obtain ⟨-, oe6, ke6, se6, pe6, qe6, -, -, -⟩ := mkEncoderBlock_ok_fields he6
  obtain ⟨-, oe7, ke7, se7, pe7, qe7, -, -, -⟩ := mkEncoderBlock_ok_fields he7
  obtain ⟨-, oe8, ke8, se8, pe8, qe8, -, -, -⟩ := mkEncoderBlock_ok_fields he8
  obtain ⟨-, od1, kd1, sd1, pd1, -, -, -⟩ := mkDecoderBlock_ok_fields hd1
  obtain ⟨-, od2, kd2, sd2, pd2, -, -, -⟩ := mkDecoderBlock_ok_fields hd2
  obtain ⟨-, od3, kd3, sd3, pd3, -, -, -⟩ := mkDecoderBlock_ok_fields hd3
  obtain ⟨-, od4, kd4, sd4, pd4, -, -, -⟩ := mkDecoderBlock_ok_fields hd4
  obtain ⟨-, od5, kd5, sd5, pd5, -, -, -⟩ := mkDecoderBlock_ok_fields hd5
  obtain ⟨-, od6, kd6, sd6, pd6, -, -, -⟩ := mkDecoderBlock_ok_fields hd6
  obtain ⟨-, od7, kd7, sd7, pd7, -, -, -⟩ := mkDecoderBlock_ok_fields hd7
  obtain ⟨-, od8, kd8, sd8, pd8, -, -, -⟩ := mkDecoderBlock_ok_fields hd8
  refine ⟨?_, ?_⟩
  · simp only [Tensor.shape, Prod.mk.injEq] at hx
    obtain ⟨hxn, hxc, hxh, hxw⟩ := hx
    simp only [Tensor.shape, Generator.forward, Generator.dec7, Generator.dec6,
      Generator.dec5, Generator.dec4, Generator.dec3, Generator.dec2, Generator.dec1,
      Generator.enc8, Generator.enc7, Generator.enc6, Generator.enc5, Generator.enc4,
      Generator.enc3, Generator.enc2, Generator.enc1,
      map_n, map_c, map_h, map_w,
      encoder_forward_n, encoder_forward_c, encoder_forward_h, encoder_forward_w,
      decoder_forward_n, decoder_forward_c, decoder_forward_h, decoder_forward_w,
      concat_n, concat_h, concat_w,
      oe1, ke1, se1, pe1, qe1, oe2, ke2, se2, pe2, qe2, oe3, ke3, se3, pe3, qe3,
      oe4, ke4, se4, pe4, qe4, oe5, ke5, se5, pe5, qe5, oe6, ke6, se6, pe6, qe6,
      oe7, ke7, se7, pe7, qe7, oe8, ke8, se8, pe8, qe8,
      od1, kd1, sd1, pd1, od2, kd2, sd2, pd2, od3, kd3, sd3, pd3, od4, kd4, sd4, pd4,
      od5, kd5, sd5, pd5, od6, kd6, sd6, pd6, od7, kd7, sd7, pd7, od8, kd8, sd8, pd8,
      hxn, hxh, hxw, Prod.mk.injEq]
    refine ⟨trivial, trivial, ?_, ?_⟩ <;> decide
  · intro n c i j
    simp only [Generator.forward, map_data]
    exact tanhR_bounds _

/-- Witness for C5: the concrete generator `gen0` on the all-zero
`(1, 3, 256, 256)` tensor yields shape `(1, 3, 256, 256)` and a value
in `[-1, 1]` at index `(0, 0, 0, 0)`. -/
theorem generator_io_contract_witness :
    (gen0.forward x256).shape = (1, 3, 256, 256) ∧
    -1 ≤ (gen0.forward x256).data 0 0 0 0 ∧ (gen0.forward x256).data 0 0 0 0 ≤ 1 :=
  ⟨(generator_io_contract false (1/2) ("batch") zeroInit gen0 rfl x256 rfl).1,
   ((generator_io_contract false (1/2) ("batch") zeroInit gen0 rfl x256 rfl).2 0 0 0 0).1,
   ((generator_io_contract false (1/2) ("batch") zeroInit gen0 rfl x256 rfl).2 0 0 0 0).2⟩

theorem concat_stage (a b : Tensor) (m : ℕ) (hA : a.c = m) :
    (∀ n c i j, c < m → (concatChannel a b).data n c i j = a.data n c i j) ∧
    (∀ n c i j, (concatChannel a b).data n (m + c) i j = b.data n c i j) := by
  subst hA
  exact ⟨fun n c i j hc => concat_data_lo a b n c i j hc,
    fun n c i j => concat_data_hi a b n c i j⟩

/-- C6: in `Generator.forward`, every decoder-stage skip concatenation
is taken along the channel axis in the order (decoder output, matching
encoder activation), pairing decoder stage `k`'s output with encoder
output `8-k` for `k = 1..7` (encoder 8's output feeds decoder 1
directly); the channel slice boundaries of each decoder-stage input are
(decoder-output-channels, encoder-output-channels) in that order. -/
theorem generator_skip_wiring
    (ic oc : ℕ) (bias : Bool) (dp : ℚ) (nrm : String) (pr : InitParams) (g : Generator)
    (h : mkGenerator ic oc bias dp nrm pr = Except.ok g) (x : Tensor) :
    (g.dec1 x = concatChannel (g.decoder1.forward (g.enc8 x)) (g.enc7 x) ∧
      (g.decoder1.forward (g.enc8 x)).c = 512 ∧ (g.enc7 x).c = 512 ∧
      (∀ n c i j, c < 512 →
        (g.dec1 x).data n c i j = (g.decoder1.forward (g.enc8 x)).data n c i j) ∧
      (∀ n c i j, (g.dec1 x).data n (512 + c) i j = (g.enc7 x).data n c i j)) ∧
    (g.dec2 x = concatChannel (g.decoder2.forward (g.dec1 x)) (g.enc6 x) ∧
      (g.decoder2.forward (g.dec1 x)).c = 512 ∧ (g.enc6 x).c = 512 ∧
      (∀ n c i j, c < 512 →
        (g.dec2 x).data n c i j = (g.decoder2.forward (g.dec1 x)).data n c i j) ∧
      (∀ n c i j, (g.dec2 x).data n (512 + c) i j = (g.enc6 x).data n c i j)) ∧
    (g.dec3 x = concatChannel (g.decoder3.forward (g.dec2 x)) (g.enc5 x) ∧
      (g.decoder3.forward (g.dec2 x)).c = 512 ∧ (g.enc5 x).c = 512 ∧
      (∀ n c i j, c < 512 →
        (g.dec3 x).data n c i j = (g.decoder3.forward (g.dec2 x)).data n c i j) ∧
      (∀ n c i j, (g.dec3 x).data n (512 + c) i j = (g.enc5 x).data n c i j)) ∧
    (g.dec4 x = concatChannel (g.decoder4.forward (g.dec3 x)) (g.enc4 x) ∧
      (g.decoder4.forward (g.dec3 x)).c = 512 ∧ (g.enc4 x).c = 512 ∧
      (∀ n c i j, c < 512 →
        (g.dec4 x).data n c i j = (g.decoder4.forward (g.dec3 x)).data n c i j) ∧
      (∀ n c i j, (g.dec4 x).data n (512 + c) i j = (g.enc4 x).data n c i j)) ∧
    (g.dec5 x = concatChannel (g.decoder5.forward (g.dec4 x)) (g.enc3 x) ∧
      (g.decoder5.forward (g.dec4 x)).c = 256 ∧ (g.enc3 x).c = 256 ∧
      (∀ n c i j, c < 256 →
        (g.dec5 x).data n c i j = (g.decoder5.forward (g.dec4 x)).data n c i j) ∧
      (∀ n c i j, (g.dec5 x).data n (256 + c) i j = (g.enc3 x).data n c i j)) ∧
    (g.dec6 x = concatChannel (g.decoder6.forward (g.dec5 x)) (g.enc2 x) ∧
      (g.decoder6.forward (g.dec5 x)).c = 128 ∧ (g.enc2 x).c = 128 ∧
      (∀ n c i j, c < 128 →
        (g.dec6 x).data n c i j = (g.decoder6.forward (g.dec5 x)).data n c i j) ∧
      (∀ n c i j, (g.dec6 x).data n (128 + c) i j = (g.enc2 x).data n c i j)) ∧
    (g.dec7 x = concatChannel (g.decoder7.forward (g.dec6 x)) (g.enc1 x) ∧
      (g.decoder7.forward (g.dec6 x)).c = 64 ∧ (g.enc1 x).c = 64 ∧
      (∀ n c i j, c < 64 →
        (g.dec7 x).data n c i j = (g.decoder7.forward (g.dec6 x)).data n c i j) ∧
      (∀ n c i j, (g.dec7 x).data n (64 + c) i j = (g.enc1 x).data n c i j)) := by
  obtain ⟨he1, he2, he3, he4, he5, he6, he7, he8,
    hd1, hd2, hd3, hd4, hd5, hd6, hd7, hd8⟩ := mkGenerator_ok_parts h
  obtain ⟨-, oe1, -, -, -, -, -, -, -⟩ := mkEncoderBlock_ok_fields he1
  obtain ⟨-, oe2, -, -, -, -, -, -, -⟩ := mkEncoderBlock_ok_fields he2
  obtain ⟨-, oe3, -, -, -, -, -, -, -⟩ := mkEncoderBlock_ok_fields he3
  obtain ⟨-, oe4, -, -, -, -, -, -, -⟩ := mkEncoderBlock_ok_fields he4
  obtain ⟨-, oe5, -, -, -, -, -, -, -⟩ := mkEncoderBlock_ok_fields he5
  obtain ⟨-, oe6, -, -, -, -, -, -, -⟩ := mkEncoderBlock_ok_fields he6
  obtain ⟨-, oe7, -, -, -, -, -, -, -⟩ := mkEncoderBlock_ok_fields he7
  obtain ⟨-, od1, -, -, -, -, -, -⟩ := mkDecoderBlock_ok_fields hd1
  obtain ⟨-, od2, -, -, -, -, -, -⟩ := mkDecoderBlock_ok_fields hd2
  obtain ⟨-, od3, -, -, -, -, -, -⟩ := mkDecoderBlock_ok_fields hd3
  obtain ⟨-, od4, -, -, -, -, -, -⟩ := mkDecoderBlock_ok_fields hd4
  obtain ⟨-, od5, -, -, -, -, -, -⟩ := mkDecoderBlock_ok_fields hd5
  obtain ⟨-, od6, -, -, -, -, -, -⟩ := mkDecoderBlock_ok_fields hd6
  obtain ⟨-, od7, -, -, -, -, -, -⟩ := mkDecoderBlock_ok_fields hd7
  have hD1 : (g.decoder1.forward (g.enc8 x)).c = 512 := by rw [decoder_forward_c, od1]
  have hE7 : (g.enc7 x).c = 512 := by rw [Generator.enc7, encoder_forward_c, oe7]
  have hD2 : (g.decoder2.forward (g.dec1 x)).c = 512 := by rw [decoder_forward_c, od2]
  have hE6 : (g.enc6 x).c = 512 := by rw [Generator.enc6, encoder_forward_c, oe6]
  have hD3 : (g.decoder3.forward (g.dec2 x)).c = 512 := by rw [decoder_forward_c, od3]
  have hE5 : (g.enc5 x).c = 512 := by rw [Generator.enc5, encoder_forward_c, oe5]
  have hD4 : (g.decoder4.forward (g.dec3 x)).c = 512 := by rw [decoder_forward_c, od4]
  have hE4 : (g.enc4 x).c = 512 := by rw [Generator.enc4, encoder_forward_c, oe4]
  have hD5 : (g.decoder5.forward (g.dec4 x)).c = 256 := by rw [decoder_forward_c, od5]
  have hE3 : (g.enc3 x).c = 256 := by rw [Generator.enc3, encoder_forward_c, oe3]
  have hD6 : (g.decoder6.forward (g.dec5 x)).c = 128 := by rw [decoder_forward_c, od6]
  have hE2 : (g.enc2 x).c = 128 := by rw [Generator.enc2, encoder_forward_c, oe2]
  have hD7 : (g.decoder7.forward (g.dec6 x)).c = 64 := by rw [decoder_forward_c, od7]
  have hE1 : (g.enc1 x).c = 64 := by rw [Generator.enc1, encoder_forward_c, oe1]
  obtain ⟨lo1, hi1⟩ := concat_stage _ (g.enc7 x) 512 hD1
  obtain ⟨lo2, hi2⟩ := concat_stage _ (g.enc6 x) 512 hD2
  obtain ⟨lo3, hi3⟩ := concat_stage _ (g.enc5 x) 512 hD3
  obtain ⟨lo4, hi4⟩ := concat_stage _ (g.enc4 x) 512 hD4
  obtain ⟨lo5, hi5⟩ := concat_stage _ (g.enc3 x) 256 hD5
  obtain ⟨lo6, hi6⟩ := concat_stage _ (g.enc2 x) 128 hD6
  obtain ⟨lo7, hi7⟩ := concat_stage _ (g.enc1 x) 64 hD7
  exact ⟨⟨rfl, hD1, hE7, lo1, hi1⟩, ⟨rfl, hD2, hE6, lo2, hi2⟩, ⟨rfl, hD3, hE5, lo3, hi3⟩,
    ⟨rfl, hD4, hE4, lo4, hi4⟩, ⟨rfl, hD5, hE3, lo5, hi5⟩, ⟨rfl, hD6, hE2, lo6, hi6⟩,
    ⟨rfl, hD7, hE1, lo7, hi7⟩⟩

/-- Witness for C6: on the concrete generator `gen0` and the all-zero
`(1, 3, 256, 256)` input, stage 1 concatenates (decoder 1 output,
encoder 7 output) in that order, and channel 512 of `decode1` reads
channel 0 of the encoder-7 activation. -/
theorem generator_skip_wiring_witness :
    gen0.dec1 x256 = concatChannel (gen0.decoder1.forward (gen0.enc8 x256)) (gen0.enc7 x256) ∧
    (gen0.dec1 x256).data 0 (512 + 0) 0 0 = (gen0.enc7 x256).data 0 0 0 0 ∧
    (gen0.dec1 x256).data 0 0 0 0 = (gen0.decoder1.forward (gen0.enc8 x256)).data 0 0 0 0 :=
  ⟨(generator_skip_wiring 3 3 false (1/2) ("batch") zeroInit gen0 rfl x256).1.1,
   ((generator_skip_wiring 3 3 false (1/2) ("batch") zeroInit gen0 rfl x256).1.2.2.2.2
      0 0 0 0),
   ((generator_skip_wiring 3 3 false (1/2) ("batch") zeroInit gen0 rfl x256).1.2.2.2.1
      0 0 0 0 (by decide))⟩
